import Mathlib

/-
Verification development for the sakura-visualizations data pipeline
(src/posts/sakura-visualizations/dev.py).

The script is a linear batch transform over three CSV tables:
  1. two wide bloom tables are reshaped to long format (pivot_longer),
  2. the two long tables are outer-joined on (location, year, is_currently_observed),
  3. right-side duplicate columns are dropped, year is cast to int32, and two
     derived day metrics are computed,
  4. a region lookup table (with a hard-coded override for five southern
     island locations) is left-joined on location,
  5. rows failing the observation/year/metric criteria are filtered out.

Tables are embedded as lists of rows; nullable columns as Option; SQL
three-valued logic for join predicates and filters is made explicit
(null keys never match, null comparisons are not kept by a filter).
-/

namespace Sakura

/-- Calendar date, as parsed by the CSV loader / DuckDB backend. -/
structure Date where
  year : Int
  month : Int
  day : Int
deriving DecidableEq, Repr

/-- Serial day number of a date (days from a fixed epoch), following the
standard civil-calendar day-counting algorithm used by date backends.
Date subtraction in the pipeline is a difference of these numbers. -/
def Date.toDayNumber (dt : Date) : Int :=
  let y := if dt.month ≤ 2 then dt.year - 1 else dt.year
  let era := Int.fdiv y 400
  let yoe := y - era * 400
  let mp := Int.emod (dt.month + 9) 12
  let doy := (153 * mp + 2) / 5 + dt.day - 1
  let doe := yoe * 365 + yoe / 4 - yoe / 100 + doy
  era * 146097 + doe

/-- Casting an integer to int32 fails (DuckDB raises a conversion error)
when the value is out of range; otherwise it is the identity. -/
def castToInt32 (n : Int) : Option Int :=
  if -2147483648 ≤ n ∧ n ≤ 2147483647 then some n else none

/-- Accumulate decimal digits; fail at the first non-digit character. -/
def digitsToNat (acc : Nat) : List Char → Option Nat
  | [] => some acc
  | c :: cs =>
    if '0' ≤ c ∧ c ≤ '9' then digitsToNat (acc * 10 + (c.toNat - 48)) cs else none

/-- Parse a non-empty all-digit character list as a natural number. -/
def parseNatDigits : List Char → Option Nat
  | [] => none
  | cs => digitsToNat 0 cs

/-- Parse a decimal integer string (optional leading minus sign). -/
def parseInt (s : String) : Option Int :=
  match s.data with
  | '-' :: cs => (parseNatDigits cs).map (fun n => -(n : Int))
  | cs => (parseNatDigits cs).map (fun n => (n : Int))

/-- The cast `cast("int32")` applied to a string column: parse the decimal
representation, then range-check. -/
def castStringToInt32 (s : String) : Option Int :=
  (parseInt s).bind castToInt32

/-- The year column labels of the wide tables: "1953" through "2023",
selected by `s.r["1953":"2023"]`. -/
def yearLabels : List String :=
  (List.range 71).map (fun i => toString (1953 + i))

/-- A row of a wide bloom table after `drop` of the two non-essential
columns and `rename` of the identifying columns: `location` (from
"Site Name"), `is_currently_observed` (from "Currently Being Observed"),
and one optional date cell per year column, aligned with `yearLabels`. -/
structure WideRow where
  location : Option String
  is_currently_observed : Option Bool
  yearValues : List (Option Date)
deriving DecidableEq, Repr

/-- A row of a reshaped long table: `names_to = "year"` holds the original
column label, `values_to` holds the (possibly null) bloom date. -/
structure LongRow where
  location : Option String
  is_currently_observed : Option Bool
  year : String
  value : Option Date
deriving DecidableEq, Repr

/-- The reshape `pivot_longer(s.r["1953":"2023"], names_to = "year", values_to = ...)`:
each wide row is exploded into one long row per year column; empty cells
are still emitted with a null value. -/
def pivot_longer (t : List WideRow) : List LongRow :=
  t.flatMap fun r =>
    (yearLabels.zip r.yearValues).map fun p =>
      ⟨r.location, r.is_currently_observed, p.1, p.2⟩

/-- The reshaped first-bloom table (`first_bloom_long` in the script);
the `value` field plays the role of the `first_bloom` column. -/
def first_bloom_long (sakura_first_bloom_dates : List WideRow) : List LongRow :=
  pivot_longer sakura_first_bloom_dates

/-- The reshaped full-bloom table (`full_bloom_long` in the script);
the `value` field plays the role of the `full_bloom` column. -/
def full_bloom_long (sakura_full_bloom_dates : List WideRow) : List LongRow :=
  pivot_longer sakura_full_bloom_dates

/-- SQL equality on nullable values: null never compares equal to
anything (the comparison is null, which a join predicate treats as
no match). -/
def optEq {α : Type} [BEq α] : Option α → Option α → Bool
  | some a, some b => a == b
  | some _, none => false
  | none, some _ => false
  | none, none => false

/-- The join predicate of the outer join: equality on each of the three
key columns `location`, `year`, `is_currently_observed`. -/
def keysMatch (l r : LongRow) : Bool :=
  optEq l.location r.location && l.year == r.year &&
    optEq l.is_currently_observed r.is_currently_observed

/-- A row of the raw outer-join result, before `select(~s.contains("_right"))`:
left columns keep their names, right-side key columns get the `_right`
suffix, and the two value columns (`first_bloom`, `full_bloom`) do not
clash. Key columns become nullable because an unmatched side is null. -/
structure JoinedRow where
  location : Option String
  is_currently_observed : Option Bool
  year : Option String
  first_bloom : Option Date
  location_right : Option String
  is_currently_observed_right : Option Bool
  year_right : Option String
  full_bloom : Option Date
deriving DecidableEq, Repr

/-- A matched pair of long rows in the outer join. -/
def matchedRow (l r : LongRow) : JoinedRow :=
  ⟨l.location, l.is_currently_observed, some l.year, l.value,
   r.location, r.is_currently_observed, some r.year, r.value⟩

/-- A left row with no key match: right-side fields are null. -/
def leftOnlyRow (l : LongRow) : JoinedRow :=
  ⟨l.location, l.is_currently_observed, some l.year, l.value,
   none, none, none, none⟩

/-- A right row with no key match: left-side fields are null. -/
def rightOnlyRow (r : LongRow) : JoinedRow :=
  ⟨none, none, none, none,
   r.location, r.is_currently_observed, some r.year, r.value⟩

/-- Full outer join on `["location", "year", "is_currently_observed"]`:
every left row is paired with each matching right row (or kept alone with
null right fields), and every unmatched right row is appended with null
left fields. Bag semantics, as in SQL. -/
def outer_join (ls rs : List LongRow) : List JoinedRow :=
  (ls.flatMap fun l =>
    if (rs.filter (fun r => keysMatch l r)).isEmpty then [leftOnlyRow l]
    else (rs.filter (fun r => keysMatch l r)).map (matchedRow l))
  ++ (rs.filter (fun r => !(ls.any (fun l => keysMatch l r)))).map rightOnlyRow

/-- A row of `sakura_dates`: the join result after dropping the `_right`
columns, casting `year` to int32, and computing the two derived metrics. -/
structure SakuraDatesRow where
  location : Option String
  is_currently_observed : Option Bool
  year : Option Int
  first_bloom : Option Date
  full_bloom : Option Date
  days_to_full_bloom : Option Int
  days_from_first_to_full_bloom : Option Int
deriving DecidableEq, Repr

/-- The synthetic date `ibis.date(_.year.cast('string') + '-01-01')`:
January 1 of the given year. -/
def jan1 (y : Int) : Date := ⟨y, 1, 1⟩

/-- The expression `(_.full_bloom - ibis.date(...)).cast('interval("D")').cast("int32")`:
the day difference between `full_bloom` and January 1 of `year`, null when
either operand is null, cast to int32. -/
def days_to_full_bloom_expr (full_bloom : Option Date) (year : Option Int) : Option Int :=
  match full_bloom, year with
  | some fb, some y => castToInt32 (fb.toDayNumber - (jan1 y).toDayNumber)
  | _, _ => none

/-- The expression `_.full_bloom - _.first_bloom`: the day difference between
the two bloom dates, null when either is null (no int32 cast is applied here). -/
def days_from_first_to_full_bloom_expr (full_bloom first_bloom : Option Date) : Option Int :=
  match full_bloom, first_bloom with
  | some fb, some fs => some (fb.toDayNumber - fs.toDayNumber)
  | _, _ => none

/-- The projection `select(~s.contains("_right"))` followed by the two
`mutate` calls: drop the right-side key columns, cast `year` to int32,
and add the derived metrics. -/
def toSakuraDatesRow (j : JoinedRow) : SakuraDatesRow :=
  let yr := j.year.bind castStringToInt32
  { location := j.location
    is_currently_observed := j.is_currently_observed
    year := yr
    first_bloom := j.first_bloom
    full_bloom := j.full_bloom
    days_to_full_bloom := days_to_full_bloom_expr j.full_bloom yr
    days_from_first_to_full_bloom :=
      days_from_first_to_full_bloom_expr j.full_bloom j.first_bloom }

/-- The joined bloom table built from the two long tables. -/
def sakura_dates_from_long (fbl fll : List LongRow) : List SakuraDatesRow :=
  (outer_join fbl fll).map toSakuraDatesRow

/-- The table `sakura_dates` of the script: outer join of the two reshaped
tables, then select, cast and derived metrics. -/
def sakura_dates (fb fl : List WideRow) : List SakuraDatesRow :=
  sakura_dates_from_long (first_bloom_long fb) (full_bloom_long fl)

/-- A row of the region lookup table `locations_region.csv`. -/
structure RegionRow where
  location : Option String
  region : Option String
deriving DecidableEq, Repr

/-- The five hard-coded southern island locations. -/
def southern_islands : List String :=
  ["Naze", "Ishigaki Island", "Miyakojima", "Naha", "Minami Daito Island"]

/-- The `mutate` on the region table:
`ibis.case().when(_.location.isin(southern_islands), "Ryukyu Islands").else_(_.region).end()`.
A null location makes `isin` null, so the case falls through to the
original region. -/
def regionCase (r : RegionRow) : RegionRow :=
  { r with region :=
      match r.location with
      | some l => if southern_islands.contains l then some "Ryukyu Islands" else r.region
      | none => r.region }

/-- The table `locations_regions` after the override mutate. -/
def locations_regions (src : List RegionRow) : List RegionRow :=
  src.map regionCase

/-- A row of `sakura_data` before filtering: all `sakura_dates` columns
plus the right side of the left join (`location_right` and `region`). -/
structure SakuraDataRow where
  location : Option String
  is_currently_observed : Option Bool
  year : Option Int
  first_bloom : Option Date
  full_bloom : Option Date
  days_to_full_bloom : Option Int
  days_from_first_to_full_bloom : Option Int
  location_right : Option String
  region : Option String
deriving DecidableEq, Repr

/-- Attach the right side of the left join to a bloom row. -/
def withRegion (l : SakuraDatesRow) (loc_r reg : Option String) : SakuraDataRow :=
  ⟨l.location, l.is_currently_observed, l.year, l.first_bloom, l.full_bloom,
   l.days_to_full_bloom, l.days_from_first_to_full_bloom, loc_r, reg⟩

/-- The join `left_join(locations_regions, "location")`: every bloom row is
kept; a row whose location matches no region row gets null right-side
fields. -/
def left_join (ls : List SakuraDatesRow) (rs : List RegionRow) : List SakuraDataRow :=
  ls.flatMap fun l =>
    if (rs.filter (fun r => optEq l.location r.location)).isEmpty
    then [withRegion l none none]
    else (rs.filter (fun r => optEq l.location r.location)).map
      (fun r => withRegion l r.location r.region)

/-- The filter predicate: SQL three-valued logic keeps a row only when
every condition is true, so a null `is_currently_observed` or null `year`
fails its comparison. -/
def sakura_filter (r : SakuraDataRow) : Bool :=
  (match r.is_currently_observed with | some b => b | none => false)
  && (match r.year with | some y => decide (1954 ≤ y) | none => false)
  && r.days_to_full_bloom.isSome
  && r.days_from_first_to_full_bloom.isSome

/-- The table `sakura_data` of the script: left join with the (overridden)
region table, then the four-condition filter. -/
def sakura_data (fb fl : List WideRow) (rg : List RegionRow) : List SakuraDataRow :=
  (left_join (sakura_dates fb fl) (locations_regions rg)).filter sakura_filter

/-! Helper lemmas about the embedded operations. -/

lemma optEq_eq_true_iff {α : Type} [BEq α] [LawfulBEq α] (a b : Option α) :
    optEq a b = true ↔ ∃ x, a = some x ∧ b = some x := by
  cases a with
  | none => cases b <;> simp [optEq]
  | some x =>
    cases b with
    | none => simp [optEq]
    | some y =>
      simp only [optEq, beq_iff_eq, Option.some.injEq]
      constructor
      · intro h; exact ⟨x, rfl, h.symm⟩
      · rintro ⟨z, rfl, rfl⟩; rfl

lemma keysMatch_iff (l r : LongRow) :
    keysMatch l r = true ↔
      (∃ x, l.location = some x ∧ r.location = some x) ∧
      l.year = r.year ∧
      (∃ b, l.is_currently_observed = some b ∧ r.is_currently_observed = some b) := by
  simp [keysMatch, Bool.and_eq_true, optEq_eq_true_iff, and_assoc]

lemma sakura_dates_from_long_fields (fbl fll : List LongRow) (r : SakuraDatesRow)
    (hr : r ∈ sakura_dates_from_long fbl fll) :
    r.days_to_full_bloom = days_to_full_bloom_expr r.full_bloom r.year ∧
    r.days_from_first_to_full_bloom =
      days_from_first_to_full_bloom_expr r.full_bloom r.first_bloom := by
  obtain ⟨j, -, rfl⟩ := List.mem_map.mp hr
  exact ⟨rfl, rfl⟩

lemma left_join_mem_src (ls : List SakuraDatesRow) (rs : List RegionRow)
    (j : SakuraDataRow) (hj : j ∈ left_join ls rs) :
    ∃ l ∈ ls, ∃ a b, j = withRegion l a b := by
  obtain ⟨l, hl, hjl⟩ := List.mem_flatMap.mp hj
  refine ⟨l, hl, ?_⟩
  by_cases hms : (rs.filter (fun r => optEq l.location r.location)).isEmpty = true
  · rw [if_pos hms] at hjl
    exact ⟨none, none, List.mem_singleton.mp hjl⟩
  · rw [if_neg hms] at hjl
    obtain ⟨r, -, rfl⟩ := List.mem_map.mp hjl
    exact ⟨r.location, r.region, rfl⟩

/-! Concrete example tables used by the witnesses. -/

def exFirstWide : List WideRow := [⟨some "Tokyo", some true, [none, some ⟨1954, 3, 20⟩]⟩]

def exFullWide : List WideRow := [⟨some "Tokyo", some true, [none, some ⟨1954, 4, 1⟩]⟩]

def exRegions : List RegionRow := [⟨some "Tokyo", some "Kanto"⟩]

def exDatesRow : SakuraDatesRow :=
  ⟨some "Tokyo", some true, some 1954, some ⟨1954, 3, 20⟩, some ⟨1954, 4, 1⟩, some 90, some 12⟩

def exDataRow : SakuraDataRow :=
  ⟨some "Tokyo", some true, some 1954, some ⟨1954, 3, 20⟩, some ⟨1954, 4, 1⟩, some 90, some 12,
   some "Tokyo", some "Kanto"⟩

/-! The claims. -/

/-- C1: in every row of the joined bloom table `sakura_dates`,
`days_to_full_bloom` is null when `full_bloom` is null; when `full_bloom`
and `year` are both present it equals the exclusive day difference between
`full_bloom` and January 1 of the row's year (the synthetic date built
from the year column), whenever that difference is in int32 range; in
particular `full_bloom` = 2020-03-15 with year 2020 yields 74. -/
theorem C1_days_to_full_bloom_spec (fb fl : List WideRow) (r : SakuraDatesRow)
    (hr : r ∈ sakura_dates fb fl) :
    (r.full_bloom = none → r.days_to_full_bloom = none) ∧
    (∀ d y, r.full_bloom = some d → r.year = some y →
      -2147483648 ≤ d.toDayNumber - (jan1 y).toDayNumber →
      d.toDayNumber - (jan1 y).toDayNumber ≤ 2147483647 →
      r.days_to_full_bloom = some (d.toDayNumber - (jan1 y).toDayNumber)) ∧
    (r.full_bloom = some ⟨2020, 3, 15⟩ → r.year = some 2020 →
      r.days_to_full_bloom = some 74) := by
  have h := (sakura_dates_from_long_fields _ _ r hr).1
  refine ⟨fun hfb => ?_, fun d y hfb hy h1 h2 => ?_, fun hfb hy => ?_⟩
  · rw [h, hfb]; rfl
  · rw [h, hfb, hy]
    show castToInt32 _ = _
    unfold castToInt32
    rw [if_pos ⟨h1, h2⟩]
  · rw [h, hfb, hy]; decide

/-- Witness for C1 at a concrete input: the Tokyo 1954 row of the example
tables. -/
theorem C1_days_to_full_bloom_spec_witness :
    (exDatesRow.full_bloom = none → exDatesRow.days_to_full_bloom = none) ∧
    (∀ d y, exDatesRow.full_bloom = some d → exDatesRow.year = some y →
      -2147483648 ≤ d.toDayNumber - (jan1 y).toDayNumber →
      d.toDayNumber - (jan1 y).toDayNumber ≤ 2147483647 →
      exDatesRow.days_to_full_bloom = some (d.toDayNumber - (jan1 y).toDayNumber)) ∧
    (exDatesRow.full_bloom = some ⟨2020, 3, 15⟩ → exDatesRow.year = some 2020 →
      exDatesRow.days_to_full_bloom = some 74) :=
  C1_days_to_full_bloom_spec exFirstWide exFullWide exDatesRow (by decide)

/-- C2: every row of the final analysis table `sakura_data` satisfies all
four filter conditions: observed flag true, year at least 1954, and both
derived metrics present. -/
theorem C2_filter_invariant (fb fl : List WideRow) (rg : List RegionRow)
    (r : SakuraDataRow) (hr : r ∈ sakura_data fb fl rg) :
    r.is_currently_observed = some true ∧
    (∃ y, r.year = some y ∧ 1954 ≤ y) ∧
    r.days_to_full_bloom ≠ none ∧
    r.days_from_first_to_full_bloom ≠ none := by
  have h := (List.mem_filter.mp hr).2
  simp only [sakura_filter, Bool.and_eq_true, and_assoc] at h
  obtain ⟨h1, h2, h3, h4⟩ := h
  refine ⟨?_, ?_, ?_, ?_⟩
  · cases hobs : r.is_currently_observed with
    | none => rw [hobs] at h1; exact Bool.noConfusion h1
    | some b =>
      rw [hobs] at h1
      have hb : b = true := h1
      rw [hb]
  · cases hy : r.year with
    | none => rw [hy] at h2; exact Bool.noConfusion h2
    | some y =>
      rw [hy] at h2
      exact ⟨y, rfl, of_decide_eq_true h2⟩
  · exact Option.ne_none_iff_isSome.mpr h3
  · exact Option.ne_none_iff_isSome.mpr h4

/-- Witness for C2 at a concrete input: the Tokyo 1954 row survives the
filter and satisfies the four conditions. -/
theorem C2_filter_invariant_witness :
    exDataRow.is_currently_observed = some true ∧
    (∃ y, exDataRow.year = some y ∧ 1954 ≤ y) ∧
    exDataRow.days_to_full_bloom ≠ none ∧
    exDataRow.days_from_first_to_full_bloom ≠ none :=
  C2_filter_invariant exFirstWide exFullWide exRegions exDataRow (by decide)

/-- C9: the filter removes every row whose observed flag is null: the
comparison with true is not satisfied for a null flag, so such a row never
appears in the final analysis table. -/
theorem C9_null_observed_filtered (fb fl : List WideRow) (rg : List RegionRow) :
    (∀ s : SakuraDataRow, s.is_currently_observed = none → sakura_filter s = false) ∧
    (∀ r ∈ sakura_data fb fl rg, r.is_currently_observed ≠ none) := by
  have key : ∀ s : SakuraDataRow, s.is_currently_observed = none →
      sakura_filter s = false := by
    intro s hs
    simp only [sakura_filter]
    rw [hs]
    rfl
  refine ⟨key, fun r hr hn => ?_⟩
  have h := (List.mem_filter.mp hr).2
  rw [key r hn] at h
  exact Bool.noConfusion h

/-- Witness for C9 at a concrete input table. -/
theorem C9_null_observed_filtered_witness :
    (∀ s : SakuraDataRow, s.is_currently_observed = none → sakura_filter s = false) ∧
    (∀ r ∈ sakura_data exFirstWide exFullWide exRegions,
      r.is_currently_observed ≠ none) :=
  C9_null_observed_filtered exFirstWide exFullWide exRegions

/-- C10: in every row of the joined bloom table,
`days_from_first_to_full_bloom` is null exactly when `first_bloom` or
`full_bloom` is null; consequently every final-table row has both bloom
dates recorded. -/
theorem C10_days_from_first_null_iff (fb fl : List WideRow) (rg : List RegionRow) :
    (∀ r ∈ sakura_dates fb fl,
      (r.days_from_first_to_full_bloom = none ↔
        r.first_bloom = none ∨ r.full_bloom = none)) ∧
    (∀ r ∈ sakura_data fb fl rg,
      r.first_bloom ≠ none ∧ r.full_bloom ≠ none) := by
  have part1 : ∀ r ∈ sakura_dates fb fl,
      (r.days_from_first_to_full_bloom = none ↔
        r.first_bloom = none ∨ r.full_bloom = none) := by
    intro r hr
    rw [(sakura_dates_from_long_fields _ _ r hr).2]
    rcases hfb : r.full_bloom with _ | d <;> rcases hfs : r.first_bloom with _ | e <;>
      simp [days_from_first_to_full_bloom_expr, hfb, hfs]
  refine ⟨part1, fun r hr => ?_⟩
  obtain ⟨hlj, hflt⟩ := List.mem_filter.mp hr
  obtain ⟨l, hl, a, b, rfl⟩ := left_join_mem_src _ _ r hlj
  simp only [sakura_filter, Bool.and_eq_true, and_assoc] at hflt
  obtain ⟨-, -, -, h4⟩ := hflt
  have hne : l.days_from_first_to_full_bloom ≠ none := Option.ne_none_iff_isSome.mpr h4
  have hnot : ¬(l.first_bloom = none ∨ l.full_bloom = none) :=
    fun hor => hne ((part1 l hl).mpr hor)
  push_neg at hnot
  exact hnot

/-- Witness for C10 at a concrete input table. -/
theorem C10_days_from_first_null_iff_witness :
    (∀ r ∈ sakura_dates exFirstWide exFullWide,
      (r.days_from_first_to_full_bloom = none ↔
        r.first_bloom = none ∨ r.full_bloom = none)) ∧
    (∀ r ∈ sakura_data exFirstWide exFullWide exRegions,
      r.first_bloom ≠ none ∧ r.full_bloom ≠ none) :=
  C10_days_from_first_null_iff exFirstWide exFullWide exRegions

lemma pivot_longer_length (t : List WideRow)
    (hlen : ∀ r ∈ t, r.yearValues.length = yearLabels.length) :
    (pivot_longer t).length = t.length * yearLabels.length := by
  revert hlen
  induction t with
  | nil => intro _; rfl
  | cons r t ih =>
    intro hlen
    have h1 : r.yearValues.length = yearLabels.length := hlen r (List.mem_cons_self _ _)
    have h2 := ih (fun x hx => hlen x (List.mem_cons_of_mem _ hx))
    simp only [pivot_longer, List.flatMap_cons, List.length_append, List.length_map,
      List.length_zip, h1, min_self] at h2 ⊢
    rw [h2, List.length_cons, Nat.succ_mul]
    omega

lemma pivot_longer_mem (t : List WideRow) (r : WideRow) (hr : r ∈ t)
    (p : String × Option Date) (hp : p ∈ yearLabels.zip r.yearValues) :
    (⟨r.location, r.is_currently_observed, p.1, p.2⟩ : LongRow) ∈ pivot_longer t :=
  List.mem_flatMap_of_mem hr (List.mem_map.mpr ⟨p, hp, rfl⟩)

/-- C6: when every wide row has one cell per year column, the reshaped
long table has exactly rows × 71 rows (71 year columns, "1953" through
"2023"), and every (row, year) cell — including an empty one — is emitted
as a long row carrying the cell's possibly null value. -/
theorem C6_pivot_shape (t : List WideRow)
    (hlen : ∀ r ∈ t, r.yearValues.length = yearLabels.length) :
    yearLabels.length = 71 ∧
    (pivot_longer t).length = t.length * 71 ∧
    (∀ r ∈ t, ∀ p ∈ yearLabels.zip r.yearValues,
      (⟨r.location, r.is_currently_observed, p.1, p.2⟩ : LongRow) ∈ pivot_longer t) := by
  have hy : yearLabels.length = 71 := by simp [yearLabels]
  exact ⟨hy, by rw [pivot_longer_length t hlen, hy],
    fun r hr p hp => pivot_longer_mem t r hr p hp⟩

def exWide71 : List WideRow := [⟨some "Kyoto", some true, List.replicate 71 none⟩]

/-- Witness for C6 at a concrete 71-column wide table. -/
theorem C6_pivot_shape_witness :
    yearLabels.length = 71 ∧
    (pivot_longer exWide71).length = exWide71.length * 71 ∧
    (∀ r ∈ exWide71, ∀ p ∈ yearLabels.zip r.yearValues,
      (⟨r.location, r.is_currently_observed, p.1, p.2⟩ : LongRow) ∈ pivot_longer exWide71) :=
  C6_pivot_shape exWide71 (by decide)

lemma left_join_preserves_left (ls : List SakuraDatesRow) (rs : List RegionRow)
    (l : SakuraDatesRow) (hl : l ∈ ls) :
    ∃ j ∈ left_join ls rs,
      j.location = l.location ∧ j.is_currently_observed = l.is_currently_observed ∧
      j.year = l.year ∧ j.first_bloom = l.first_bloom ∧ j.full_bloom = l.full_bloom ∧
      j.days_to_full_bloom = l.days_to_full_bloom ∧
      j.days_from_first_to_full_bloom = l.days_from_first_to_full_bloom ∧
      ((∀ rr ∈ rs, optEq l.location rr.location = false) → j.region = none) := by
  by_cases hms : (rs.filter (fun r => optEq l.location r.location)).isEmpty = true
  · refine ⟨withRegion l none none, ?_, rfl, rfl, rfl, rfl, rfl, rfl, rfl, fun _ => rfl⟩
    refine List.mem_flatMap_of_mem hl ?_
    rw [if_pos hms]
    exact List.mem_singleton_self _
  · have hne : rs.filter (fun r => optEq l.location r.location) ≠ [] := by
      simpa [List.isEmpty_iff] using hms
    obtain ⟨r0, hr0⟩ := List.exists_mem_of_ne_nil _ hne
    refine ⟨withRegion l r0.location r0.region, ?_, rfl, rfl, rfl, rfl, rfl, rfl, rfl, ?_⟩
    · refine List.mem_flatMap_of_mem hl ?_
      rw [if_neg hms]
      exact List.mem_map_of_mem _ hr0
    · intro hall
      exfalso
      have hmt := (List.mem_filter.mp hr0).2
      rw [hall r0 (List.mem_filter.mp hr0).1] at hmt
      exact Bool.noConfusion hmt

/-- C7: in the left join of the combined bloom table with the region
table, every bloom row is preserved: an output row with identical bloom
fields exists, and when the row's location matches no region row its
region is null rather than the row being dropped. -/
theorem C7_left_join_preserves (fb fl : List WideRow) (rg : List RegionRow)
    (l : SakuraDatesRow) (hl : l ∈ sakura_dates fb fl) :
    ∃ j ∈ left_join (sakura_dates fb fl) (locations_regions rg),
      j.location = l.location ∧ j.is_currently_observed = l.is_currently_observed ∧
      j.year = l.year ∧ j.first_bloom = l.first_bloom ∧ j.full_bloom = l.full_bloom ∧
      j.days_to_full_bloom = l.days_to_full_bloom ∧
      j.days_from_first_to_full_bloom = l.days_from_first_to_full_bloom ∧
      ((∀ rr ∈ locations_regions rg, optEq l.location rr.location = false) →
        j.region = none) :=
  left_join_preserves_left (sakura_dates fb fl) (locations_regions rg) l hl

/-- Witness for C7: the Tokyo 1954 bloom row is preserved against an empty
region table. -/
theorem C7_left_join_preserves_witness :
    ∃ j ∈ left_join (sakura_dates exFirstWide exFullWide) (locations_regions []),
      j.location = exDatesRow.location ∧
      j.is_currently_observed = exDatesRow.is_currently_observed ∧
      j.year = exDatesRow.year ∧ j.first_bloom = exDatesRow.first_bloom ∧
      j.full_bloom = exDatesRow.full_bloom ∧
      j.days_to_full_bloom = exDatesRow.days_to_full_bloom ∧
      j.days_from_first_to_full_bloom = exDatesRow.days_from_first_to_full_bloom ∧
      ((∀ rr ∈ locations_regions [], optEq exDatesRow.location rr.location = false) →
        j.region = none) :=
  C7_left_join_preserves exFirstWide exFullWide [] exDatesRow (by decide)

/-- Checks that a year label casts to an int32 in the range 1953..2023. -/
def yearCastOk (s : String) : Bool :=
  match castStringToInt32 s with
  | some n => decide (1953 ≤ n) && decide (n ≤ 2023)
  | none => false

lemma yearLabels_all_cast : yearLabels.all yearCastOk = true := by decide

/-- C8: every reshaped long row's year field is one of the string labels
"1953" through "2023", and the int32 cast of such a label always succeeds
with an integer between 1953 and 2023. -/
theorem C8_year_cast_safe (t : List WideRow) (lr : LongRow)
    (hlr : lr ∈ pivot_longer t) :
    lr.year ∈ yearLabels ∧
    ∃ n : Int, castStringToInt32 lr.year = some n ∧ 1953 ≤ n ∧ n ≤ 2023 := by
  obtain ⟨r, hr, hmem⟩ := List.mem_flatMap.mp hlr
  obtain ⟨p, hp, rfl⟩ := List.mem_map.mp hmem
  obtain ⟨y, v⟩ := p
  have hyl : y ∈ yearLabels := (List.of_mem_zip hp).1
  have hall := List.all_eq_true.mp yearLabels_all_cast y hyl
  refine ⟨hyl, ?_⟩
  unfold yearCastOk at hall
  cases hc : castStringToInt32 y with
  | none => rw [hc] at hall; exact Bool.noConfusion hall
  | some n =>
    rw [hc] at hall
    have h := Bool.and_eq_true_iff.mp hall
    exact ⟨n, rfl, of_decide_eq_true h.1, of_decide_eq_true h.2⟩

/-- Key predicate on a long row: its (location, year, observed) key equals
the given key value. -/
def longKeyIs (loc : Option String) (yr : String) (obs : Option Bool) (l : LongRow) : Bool :=
  decide (l.location = loc ∧ l.year = yr ∧ l.is_currently_observed = obs)

/-- Key predicate on a joined row: its left-side or its right-side key
equals the given key value. -/
def joinedKeyIs (loc : Option String) (yr : String) (obs : Option Bool)
    (j : JoinedRow) : Bool :=
  decide ((j.location = loc ∧ j.year = some yr ∧ j.is_currently_observed = obs) ∨
    (j.location_right = loc ∧ j.year_right = some yr ∧
      j.is_currently_observed_right = obs))

lemma joinedKeyIs_leftOnly (loc : Option String) (yr : String) (obs : Option Bool)
    (l : LongRow) (h : longKeyIs loc yr obs l = true) :
    joinedKeyIs loc yr obs (leftOnlyRow l) = true := by
  have h' := of_decide_eq_true h
  exact decide_eq_true (Or.inl ⟨h'.1, congrArg some h'.2.1, h'.2.2⟩)

lemma joinedKeyIs_matched_left (loc : Option String) (yr : String) (obs : Option Bool)
    (l r : LongRow) (h : longKeyIs loc yr obs l = true) :
    joinedKeyIs loc yr obs (matchedRow l r) = true := by
  have h' := of_decide_eq_true h
  exact decide_eq_true (Or.inl ⟨h'.1, congrArg some h'.2.1, h'.2.2⟩)

lemma joinedKeyIs_matched_right (loc : Option String) (yr : String) (obs : Option Bool)
    (l r : LongRow) (h : longKeyIs loc yr obs r = true) :
    joinedKeyIs loc yr obs (matchedRow l r) = true := by
  have h' := of_decide_eq_true h
  exact decide_eq_true (Or.inr ⟨h'.1, congrArg some h'.2.1, h'.2.2⟩)

lemma joinedKeyIs_rightOnly (loc : Option String) (yr : String) (obs : Option Bool)
    (r : LongRow) (h : longKeyIs loc yr obs r = true) :
    joinedKeyIs loc yr obs (rightOnlyRow r) = true := by
  have h' := of_decide_eq_true h
  exact decide_eq_true (Or.inr ⟨h'.1, congrArg some h'.2.1, h'.2.2⟩)

lemma countP_flatMap_ge_pred {α β : Type} (f : α → List β) (p : α → Bool) (q : β → Bool)
    (l : List α) (h : ∀ a ∈ l, p a = true → 1 ≤ (f a).countP q) :
    l.countP p ≤ (l.flatMap f).countP q := by
  induction l with
  | nil => simp
  | cons a l ih =>
    rw [List.flatMap_cons, List.countP_append, List.countP_cons]
    have hih := ih (fun x hx => h x (List.mem_cons_of_mem _ hx))
    by_cases hp : p a = true
    · rw [if_pos hp]
      have h1 := h a (List.mem_cons_self _ _) hp
      omega
    · rw [if_neg hp]
      omega

lemma countP_flatMap_ge_elem {α β : Type} (f : α → List β) (q : β → Bool)
    (l : List α) (a : α) (ha : a ∈ l) :
    (f a).countP q ≤ (l.flatMap f).countP q := by
  induction l with
  | nil => cases ha
  | cons x l ih =>
    rw [List.flatMap_cons, List.countP_append]
    rcases List.mem_cons.mp ha with rfl | h
    · exact Nat.le_add_right _ _
    · exact Nat.le_trans (ih h) (Nat.le_add_left _ _)

lemma outer_join_left_total (ls rs : List LongRow) (l : LongRow) (hl : l ∈ ls) :
    ∃ j ∈ outer_join ls rs,
      j.location = l.location ∧ j.year = some l.year ∧
      j.is_currently_observed = l.is_currently_observed ∧ j.first_bloom = l.value ∧
      ((∀ r ∈ rs, keysMatch l r = false) →
        j.location_right = none ∧ j.year_right = none ∧
        j.is_currently_observed_right = none ∧ j.full_bloom = none) := by
  by_cases hms : ((rs.filter (fun r => keysMatch l r)).isEmpty = true)
  · refine ⟨leftOnlyRow l, ?_, rfl, rfl, rfl, rfl, fun _ => ⟨rfl, rfl, rfl, rfl⟩⟩
    apply List.mem_append_left
    refine List.mem_flatMap_of_mem hl ?_
    rw [if_pos hms]
    exact List.mem_singleton_self _
  · have hne : rs.filter (fun r => keysMatch l r) ≠ [] := by
      simpa [List.isEmpty_iff] using hms
    obtain ⟨r0, hr0⟩ := List.exists_mem_of_ne_nil _ hne
    refine ⟨matchedRow l r0, ?_, rfl, rfl, rfl, rfl, fun hall => ?_⟩
    · apply List.mem_append_left
      refine List.mem_flatMap_of_mem hl ?_
      rw [if_neg hms]
      exact List.mem_map_of_mem _ hr0
    · exfalso
      have h := (List.mem_filter.mp hr0).2
      rw [hall r0 (List.mem_filter.mp hr0).1] at h
      exact Bool.noConfusion h

lemma outer_join_right_total (ls rs : List LongRow) (r : LongRow) (hr : r ∈ rs) :
    ∃ j ∈ outer_join ls rs,
      j.location_right = r.location ∧ j.year_right = some r.year ∧
      j.is_currently_observed_right = r.is_currently_observed ∧ j.full_bloom = r.value ∧
      ((∀ l ∈ ls, keysMatch l r = false) →
        j.location = none ∧ j.year = none ∧
        j.is_currently_observed = none ∧ j.first_bloom = none) := by
  by_cases hmatch : ∃ l ∈ ls, keysMatch l r = true
  · obtain ⟨l, hl, hkm⟩ := hmatch
    have hrm : r ∈ rs.filter (fun r' => keysMatch l r') := List.mem_filter.mpr ⟨hr, hkm⟩
    have hne : ¬ ((rs.filter (fun r' => keysMatch l r')).isEmpty = true) := by
      intro hemp
      rw [List.isEmpty_iff.mp hemp] at hrm
      cases hrm
    refine ⟨matchedRow l r, ?_, rfl, rfl, rfl, rfl, fun hall => ?_⟩
    · apply List.mem_append_left
      refine List.mem_flatMap_of_mem hl ?_
      rw [if_neg hne]
      exact List.mem_map_of_mem _ hrm
    · exfalso
      rw [hall l hl] at hkm
      exact Bool.noConfusion hkm
  · have hum : r ∈ rs.filter (fun r' => !(ls.any (fun l => keysMatch l r'))) := by
      refine List.mem_filter.mpr ⟨hr, ?_⟩
      rw [Bool.not_eq_true', List.any_eq_false]
      intro l hlm hk
      exact hmatch ⟨l, hlm, hk⟩
    refine ⟨rightOnlyRow r, ?_, rfl, rfl, rfl, rfl, fun _ => ⟨rfl, rfl, rfl, rfl⟩⟩
    apply List.mem_append_right
    exact List.mem_map_of_mem _ hum

lemma outer_join_countP_ge (ls rs : List LongRow) (loc : Option String) (yr : String)
    (obs : Option Bool) :
    max (ls.countP (longKeyIs loc yr obs)) (rs.countP (longKeyIs loc yr obs)) ≤
      (outer_join ls rs).countP (joinedKeyIs loc yr obs) := by
  have hA : ls.countP (longKeyIs loc yr obs) ≤
      (ls.flatMap fun l =>
        if (rs.filter (fun r => keysMatch l r)).isEmpty then [leftOnlyRow l]
        else (rs.filter (fun r => keysMatch l r)).map (matchedRow l)).countP
        (joinedKeyIs loc yr obs) := by
    apply countP_flatMap_ge_pred
    intro l _ hkl
    by_cases hms : ((rs.filter (fun r => keysMatch l r)).isEmpty = true)
    · rw [if_pos hms]
      have h1 := joinedKeyIs_leftOnly loc yr obs l hkl
      simp [h1]
    · rw [if_neg hms]
      have hne : rs.filter (fun r => keysMatch l r) ≠ [] := by
        simpa [List.isEmpty_iff] using hms
      rw [List.countP_map]
      have hall : ∀ x ∈ rs.filter (fun r => keysMatch l r),
          ((joinedKeyIs loc yr obs) ∘ (matchedRow l)) x = true :=
        fun x _ => joinedKeyIs_matched_left loc yr obs l x hkl
      rw [List.countP_eq_length.mpr hall]
      exact List.length_pos.mpr hne
  have hB : rs.countP (longKeyIs loc yr obs) ≤
      (ls.flatMap fun l =>
        if (rs.filter (fun r => keysMatch l r)).isEmpty then [leftOnlyRow l]
        else (rs.filter (fun r => keysMatch l r)).map (matchedRow l)).countP
        (joinedKeyIs loc yr obs) +
      ((rs.filter (fun r => !(ls.any (fun l => keysMatch l r)))).map rightOnlyRow).countP
        (joinedKeyIs loc yr obs) := by
    by_cases hex : ∃ l ∈ ls, ∃ r ∈ rs, longKeyIs loc yr obs r = true ∧ keysMatch l r = true
    · obtain ⟨l0, hl0, r0, hr0, hkr0, hkm0⟩ := hex
      have hmatchAll : ∀ r ∈ rs, longKeyIs loc yr obs r = true → keysMatch l0 r = true := by
        intro r hrm hkr
        obtain ⟨⟨x, hx1, hx2⟩, hyear, ⟨bb, hb1, hb2⟩⟩ := (keysMatch_iff l0 r0).mp hkm0
        have hr0' := of_decide_eq_true hkr0
        have hr' := of_decide_eq_true hkr
        refine (keysMatch_iff l0 r).mpr ⟨⟨x, hx1, ?_⟩, ?_, ⟨bb, hb1, ?_⟩⟩
        · rw [hr'.1, ← hr0'.1, hx2]
        · rw [hyear, hr0'.2.1, hr'.2.1]
        · rw [hr'.2.2, ← hr0'.2.2, hb2]
      have hms_eq : (rs.filter (fun r => keysMatch l0 r)).countP (longKeyIs loc yr obs) =
          rs.countP (longKeyIs loc yr obs) := by
        rw [List.countP_filter]
        apply List.countP_congr
        intro r hrm
        constructor
        · intro h; exact (Bool.and_eq_true_iff.mp h).1
        · intro h; exact Bool.and_eq_true_iff.mpr ⟨h, hmatchAll r hrm h⟩
      have hrm0 : r0 ∈ rs.filter (fun r => keysMatch l0 r) :=
        List.mem_filter.mpr ⟨hr0, hkm0⟩
      have hne : ¬ ((rs.filter (fun r => keysMatch l0 r)).isEmpty = true) := by
        intro hemp
        rw [List.isEmpty_iff.mp hemp] at hrm0
        cases hrm0
      calc rs.countP (longKeyIs loc yr obs)
          = (rs.filter (fun r => keysMatch l0 r)).countP (longKeyIs loc yr obs) :=
            hms_eq.symm
        _ ≤ (rs.filter (fun r => keysMatch l0 r)).countP
              ((joinedKeyIs loc yr obs) ∘ (matchedRow l0)) :=
            List.countP_mono_left
              (fun r _ hkr => joinedKeyIs_matched_right loc yr obs l0 r hkr)
        _ = ((rs.filter (fun r => keysMatch l0 r)).map (matchedRow l0)).countP
              (joinedKeyIs loc yr obs) := (List.countP_map _ _ _).symm
        _ = (if (rs.filter (fun r => keysMatch l0 r)).isEmpty then [leftOnlyRow l0]
              else (rs.filter (fun r => keysMatch l0 r)).map (matchedRow l0)).countP
              (joinedKeyIs loc yr obs) := by rw [if_neg hne]
        _ ≤ (ls.flatMap fun l =>
              if (rs.filter (fun r => keysMatch l r)).isEmpty then [leftOnlyRow l]
              else (rs.filter (fun r => keysMatch l r)).map (matchedRow l)).countP
              (joinedKeyIs loc yr obs) :=
            countP_flatMap_ge_elem
              (fun l =>
                if (rs.filter (fun r => keysMatch l r)).isEmpty then [leftOnlyRow l]
                else (rs.filter (fun r => keysMatch l r)).map (matchedRow l))
              (joinedKeyIs loc yr obs) ls l0 hl0
        _ ≤ _ := Nat.le_add_right _ _
    · have hallum : ∀ r ∈ rs, longKeyIs loc yr obs r = true →
          (!(ls.any (fun l => keysMatch l r))) = true := by
        intro r hrm hkr
        rw [Bool.not_eq_true', List.any_eq_false]
        intro l hlm hk
        exact hex ⟨l, hlm, r, hrm, hkr, hk⟩
      have h1 : (rs.filter (fun r => !(ls.any (fun l => keysMatch l r)))).countP
          (longKeyIs loc yr obs) = rs.countP (longKeyIs loc yr obs) := by
        rw [List.countP_filter]
        apply List.countP_congr
        intro r hrm
        constructor
        · intro h; exact (Bool.and_eq_true_iff.mp h).1
        · intro h; exact Bool.and_eq_true_iff.mpr ⟨h, hallum r hrm h⟩
      calc rs.countP (longKeyIs loc yr obs)
          = (rs.filter (fun r => !(ls.any (fun l => keysMatch l r)))).countP
              (longKeyIs loc yr obs) := h1.symm
        _ ≤ (rs.filter (fun r => !(ls.any (fun l => keysMatch l r)))).countP
              ((joinedKeyIs loc yr obs) ∘ rightOnlyRow) :=
            List.countP_mono_left
              (fun r _ hkr => joinedKeyIs_rightOnly loc yr obs r hkr)
        _ = ((rs.filter (fun r => !(ls.any (fun l => keysMatch l r)))).map
              rightOnlyRow).countP (joinedKeyIs loc yr obs) :=
            (List.countP_map _ _ _).symm
        _ ≤ _ := Nat.le_add_left _ _
  unfold outer_join
  rw [List.countP_append]
  exact max_le (Nat.le_trans hA (Nat.le_add_right _ _)) hB

/-- C5: the outer join of the two reshaped long tables preserves every row
from either side (with the other side's fields null when unmatched), and
for every key the joined table holds at least as many rows with that key
as the larger of the two inputs. -/
theorem C5_outer_join_preserves (fb fl : List WideRow) :
    (∀ l ∈ first_bloom_long fb,
      ∃ j ∈ outer_join (first_bloom_long fb) (full_bloom_long fl),
        j.location = l.location ∧ j.year = some l.year ∧
        j.is_currently_observed = l.is_currently_observed ∧ j.first_bloom = l.value ∧
        ((∀ r ∈ full_bloom_long fl, keysMatch l r = false) →
          j.location_right = none ∧ j.year_right = none ∧
          j.is_currently_observed_right = none ∧ j.full_bloom = none)) ∧
    (∀ r ∈ full_bloom_long fl,
      ∃ j ∈ outer_join (first_bloom_long fb) (full_bloom_long fl),
        j.location_right = r.location ∧ j.year_right = some r.year ∧
        j.is_currently_observed_right = r.is_currently_observed ∧ j.full_bloom = r.value ∧
        ((∀ l ∈ first_bloom_long fb, keysMatch l r = false) →
          j.location = none ∧ j.year = none ∧
          j.is_currently_observed = none ∧ j.first_bloom = none)) ∧
    (∀ (loc : Option String) (yr : String) (obs : Option Bool),
      max ((first_bloom_long fb).countP (longKeyIs loc yr obs))
          ((full_bloom_long fl).countP (longKeyIs loc yr obs)) ≤
        (outer_join (first_bloom_long fb) (full_bloom_long fl)).countP
          (joinedKeyIs loc yr obs)) :=
  ⟨fun l hl => outer_join_left_total _ _ l hl,
   fun r hr => outer_join_right_total _ _ r hr,
   fun loc yr obs => outer_join_countP_ge _ _ loc yr obs⟩

/-- Witness for C5 at the concrete example tables. -/
theorem C5_outer_join_preserves_witness :
    (∀ l ∈ first_bloom_long exFirstWide,
      ∃ j ∈ outer_join (first_bloom_long exFirstWide) (full_bloom_long exFullWide),
        j.location = l.location ∧ j.year = some l.year ∧
        j.is_currently_observed = l.is_currently_observed ∧ j.first_bloom = l.value ∧
        ((∀ r ∈ full_bloom_long exFullWide, keysMatch l r = false) →
          j.location_right = none ∧ j.year_right = none ∧
          j.is_currently_observed_right = none ∧ j.full_bloom = none)) ∧
    (∀ r ∈ full_bloom_long exFullWide,
      ∃ j ∈ outer_join (first_bloom_long exFirstWide) (full_bloom_long exFullWide),
        j.location_right = r.location ∧ j.year_right = some r.year ∧
        j.is_currently_observed_right = r.is_currently_observed ∧ j.full_bloom = r.value ∧
        ((∀ l ∈ first_bloom_long exFirstWide, keysMatch l r = false) →
          j.location = none ∧ j.year = none ∧
          j.is_currently_observed = none ∧ j.first_bloom = none)) ∧
    (∀ (loc : Option String) (yr : String) (obs : Option Bool),
      max ((first_bloom_long exFirstWide).countP (longKeyIs loc yr obs))
          ((full_bloom_long exFullWide).countP (longKeyIs loc yr obs)) ≤
        (outer_join (first_bloom_long exFirstWide) (full_bloom_long exFullWide)).countP
          (joinedKeyIs loc yr obs)) :=
  C5_outer_join_preserves exFirstWide exFullWide

/-- C4: a first-bloom long row (Tokyo, year "1980", first_bloom
1980-03-20) matched with a full-bloom long row (Tokyo, year "1980",
full_bloom 1980-04-01) carrying the same observed flag produces a merged
row with days_to_full_bloom = 91 and days_from_first_to_full_bloom = 12. -/
theorem C4_tokyo_1980 (fbl fll : List LongRow) (b : Bool)
    (hl : (⟨some "Tokyo", some b, "1980", some ⟨1980, 3, 20⟩⟩ : LongRow) ∈ fbl)
    (hr : (⟨some "Tokyo", some b, "1980", some ⟨1980, 4, 1⟩⟩ : LongRow) ∈ fll) :
    ∃ j ∈ sakura_dates_from_long fbl fll,
      j.location = some "Tokyo" ∧ j.year = some 1980 ∧
      j.first_bloom = some ⟨1980, 3, 20⟩ ∧ j.full_bloom = some ⟨1980, 4, 1⟩ ∧
      j.days_to_full_bloom = some 91 ∧
      j.days_from_first_to_full_bloom = some 12 := by
  have hkm : keysMatch (⟨some "Tokyo", some b, "1980", some ⟨1980, 3, 20⟩⟩ : LongRow)
      (⟨some "Tokyo", some b, "1980", some ⟨1980, 4, 1⟩⟩ : LongRow) = true := by
    simp [keysMatch, optEq]
  have hrm : (⟨some "Tokyo", some b, "1980", some ⟨1980, 4, 1⟩⟩ : LongRow) ∈
      fll.filter (fun r' =>
        keysMatch (⟨some "Tokyo", some b, "1980", some ⟨1980, 3, 20⟩⟩ : LongRow) r') :=
    List.mem_filter.mpr ⟨hr, hkm⟩
  have hne : ¬ ((fll.filter (fun r' =>
      keysMatch (⟨some "Tokyo", some b, "1980", some ⟨1980, 3, 20⟩⟩ : LongRow) r')).isEmpty
        = true) := by
    intro hemp
    rw [List.isEmpty_iff.mp hemp] at hrm
    cases hrm
  have hj : matchedRow ⟨some "Tokyo", some b, "1980", some ⟨1980, 3, 20⟩⟩
      ⟨some "Tokyo", some b, "1980", some ⟨1980, 4, 1⟩⟩ ∈ outer_join fbl fll := by
    apply List.mem_append_left
    refine List.mem_flatMap_of_mem hl ?_
    rw [if_neg hne]
    exact List.mem_map_of_mem _ hrm
  refine ⟨toSakuraDatesRow (matchedRow ⟨some "Tokyo", some b, "1980", some ⟨1980, 3, 20⟩⟩
      ⟨some "Tokyo", some b, "1980", some ⟨1980, 4, 1⟩⟩),
    List.mem_map_of_mem _ hj, rfl, ?_, rfl, rfl, ?_, ?_⟩
  · show (some "1980").bind castStringToInt32 = some 1980
    decide
  · show days_to_full_bloom_expr (some ⟨1980, 4, 1⟩) ((some "1980").bind castStringToInt32) =
      some 91
    decide
  · show days_from_first_to_full_bloom_expr (some ⟨1980, 4, 1⟩) (some ⟨1980, 3, 20⟩) =
      some 12
    decide

def c4FirstLong : List LongRow := [⟨some "Tokyo", some true, "1980", some ⟨1980, 3, 20⟩⟩]

def c4FullLong : List LongRow := [⟨some "Tokyo", some true, "1980", some ⟨1980, 4, 1⟩⟩]

/-- Witness for C4 at concrete singleton long tables. -/
theorem C4_tokyo_1980_witness :
    ∃ j ∈ sakura_dates_from_long c4FirstLong c4FullLong,
      j.location = some "Tokyo" ∧ j.year = some 1980 ∧
      j.first_bloom = some ⟨1980, 3, 20⟩ ∧ j.full_bloom = some ⟨1980, 4, 1⟩ ∧
      j.days_to_full_bloom = some 91 ∧
      j.days_from_first_to_full_bloom = some 12 :=
  C4_tokyo_1980 c4FirstLong c4FullLong true (by decide) (by decide)

lemma left_join_region_cases (ls : List SakuraDatesRow) (rs : List RegionRow)
    (j : SakuraDataRow) (hj : j ∈ left_join ls rs) :
    ∃ l ∈ ls, j.location = l.location ∧
      ((j.region = none ∧ ∀ r ∈ rs, optEq l.location r.location = false) ∨
       (∃ r ∈ rs, optEq l.location r.location = true ∧ j.region = r.region)) := by
  obtain ⟨l, hl, hjl⟩ := List.mem_flatMap.mp hj
  refine ⟨l, hl, ?_⟩
  by_cases hms : (rs.filter (fun r => optEq l.location r.location)).isEmpty = true
  · rw [if_pos hms] at hjl
    have hj' : j = withRegion l none none := List.mem_singleton.mp hjl
    subst hj'
    refine ⟨rfl, Or.inl ⟨rfl, fun r hr => ?_⟩⟩
    have hnil := List.isEmpty_iff.mp hms
    exact Bool.eq_false_iff.mpr (List.filter_eq_nil_iff.mp hnil r hr)
  · rw [if_neg hms] at hjl
    obtain ⟨r, hrf, rfl⟩ := List.mem_map.mp hjl
    have hr := List.mem_filter.mp hrf
    exact ⟨rfl, Or.inr ⟨r, hr.1, hr.2, rfl⟩⟩

def ceFirstWide : List WideRow := [⟨some "Naha", some true, [none, some ⟨1954, 1, 10⟩]⟩]

def ceFullWide : List WideRow := [⟨some "Naha", some true, [none, some ⟨1954, 1, 25⟩]⟩]

def ceRegions : List RegionRow := [⟨some "Naha", some "Okinawa"⟩]

/-- Counterexample to C3 as stated: when "Naha" is absent from the region
lookup table, the final analysis table contains a Naha row whose region is
null, not "Ryukyu Islands". -/
theorem C3_region_override_counterexample :
    ∃ j ∈ sakura_data ceFirstWide ceFullWide [],
      j.location = some "Naha" ∧ "Naha" ∈ southern_islands ∧
      j.region ≠ some "Ryukyu Islands" := by decide

/-- C3 amended: for every final-table row whose location is one of the
five southern locations, provided the location appears in the region
lookup table, the region field equals "Ryukyu Islands" regardless of the
region value the lookup supplied for it. (As stated, the claim fails when
the location is absent from the lookup: the left join then yields a null
region, see the counterexample.) -/
theorem C3_region_override (fb fl : List WideRow) (rg : List RegionRow)
    (j : SakuraDataRow) (hj : j ∈ sakura_data fb fl rg) (loc : String)
    (hloc : j.location = some loc) (hsouth : loc ∈ southern_islands)
    (hpresent : ∃ rr ∈ rg, rr.location = some loc) :
    j.region = some "Ryukyu Islands" := by
  have hj' := (List.mem_filter.mp hj).1
  obtain ⟨l, hl, hjl, hcases⟩ := left_join_region_cases _ _ j hj'
  have hlloc : l.location = some loc := by rw [← hjl, hloc]
  obtain ⟨rr, hrr, hrrloc⟩ := hpresent
  rcases hcases with ⟨-, hall⟩ | ⟨r, hrmem, hmatch, hreg⟩
  · exfalso
    have hmem : regionCase rr ∈ locations_regions rg := List.mem_map_of_mem _ hrr
    have hfalse := hall _ hmem
    have htrue : optEq l.location (regionCase rr).location = true := by
      show optEq l.location rr.location = true
      rw [hlloc, hrrloc]
      simp [optEq]
    rw [htrue] at hfalse
    exact Bool.noConfusion hfalse
  · obtain ⟨rr0, hrr0, hr0eq⟩ := List.mem_map.mp hrmem
    rw [← hr0eq] at hmatch hreg
    rw [hlloc] at hmatch
    obtain ⟨x, hx1, hx2⟩ := (optEq_eq_true_iff _ _).mp hmatch
    have hxeq : x = loc := by injection hx1 with h; exact h.symm
    subst hxeq
    have hrr0loc : rr0.location = some x := hx2
    rw [hreg]
    show (regionCase rr0).region = some "Ryukyu Islands"
    simp [regionCase, hrr0loc, hsouth]

/-- Witness for the amended C3: a Naha row whose lookup value is
"Okinawa" still ends with region "Ryukyu Islands". -/
theorem C3_region_override_witness :
    (⟨some "Naha", some true, some 1954, some ⟨1954, 1, 10⟩, some ⟨1954, 1, 25⟩,
      some 24, some 15, some "Naha", some "Ryukyu Islands"⟩ : SakuraDataRow).region =
      some "Ryukyu Islands" :=
  C3_region_override ceFirstWide ceFullWide ceRegions
    ⟨some "Naha", some true, some 1954, some ⟨1954, 1, 10⟩, some ⟨1954, 1, 25⟩,
      some 24, some 15, some "Naha", some "Ryukyu Islands"⟩
    (by decide) "Naha" rfl (by decide) ⟨⟨some "Naha", some "Okinawa"⟩, by decide, rfl⟩

/-- Witness for C8: the first long row of the example 71-column table. -/
theorem C8_year_cast_safe_witness :
    (⟨some "Kyoto", some true, "1953", none⟩ : LongRow).year ∈ yearLabels ∧
    ∃ n : Int, castStringToInt32 (⟨some "Kyoto", some true, "1953", none⟩ : LongRow).year =
      some n ∧ 1953 ≤ n ∧ n ≤ 2023 :=
  C8_year_cast_safe exWide71 ⟨some "Kyoto", some true, "1953", none⟩ (by decide)

end Sakura
